import Mathlib

/-!
Verification development for the `sai-quote-search` repository.

The definitions below are a shallow embedding of the Python source files
`Module1Matcher.py` and `quote_search_app_with_module1.py`.  Python values
coming from parsed JSON are modelled by the inductive type `JVal`
(JSON numbers are restricted to integers, which covers every value the
code manipulates).  Python dictionaries are association lists in key
insertion order, `None` is `JVal.null`, and Python truthiness is the
function `jTruthy`.  Exceptions are modelled with `Except String`:
an `Except.error` value marks the point where the Python code would raise.
-/

set_option maxRecDepth 4000

/-- Model of a Python/JSON value (numbers restricted to integers, which is
all the source code ever produces or consumes). -/
inductive JVal where
  | null : JVal
  | str : String → JVal
  | num : Int → JVal
  | arr : List JVal → JVal
  | obj : List (String × JVal) → JVal

/-- Python truthiness (`bool(x)`) for the modelled values: `None`, `""`, `0`,
`[]` and the empty dict are falsy, everything else is truthy. -/
def jTruthy : JVal → Bool
  | .null => false
  | .str s => s ≠ ""
  | .num n => n ≠ 0
  | .arr l => !l.isEmpty
  | .obj l => !l.isEmpty

/-- A single-quote character, used when building Python `repr` strings. -/
def quoteS : String := String.singleton (Char.ofNat 39)

/-- A double-quote character, used when building formatted messages. -/
def quoteD : String := String.singleton (Char.ofNat 34)

mutual

/-- Python `repr` of a modelled value (as embedded inside containers by
`str()`).  String escaping inside `repr` is not modelled: the values the
claims touch contain no quotes or backslashes. -/
def pyRepr : JVal → String
  | .null => "None"
  | .str s => quoteS ++ s ++ quoteS
  | .num n => toString n
  | .arr l => "[" ++ pyReprList l ++ "]"
  | .obj l => "\x7b" ++ pyReprObj l ++ "\x7d"

/-- Comma-separated `repr` of list elements. -/
def pyReprList : List JVal → String
  | [] => ""
  | [x] => pyRepr x
  | x :: xs => pyRepr x ++ ", " ++ pyReprList xs

/-- Comma-separated `repr` of dict items. -/
def pyReprObj : List (String × JVal) → String
  | [] => ""
  | [(k, v)] => quoteS ++ k ++ quoteS ++ ": " ++ pyRepr v
  | (k, v) :: xs => quoteS ++ k ++ quoteS ++ ": " ++ pyRepr v ++ ", " ++ pyReprObj xs

end

/-- Python `str()` of a modelled value: identity on strings, `repr`-style
otherwise (`str(None) = "None"`, `str(3) = "3"`, containers via `repr`). -/
def pyStr : JVal → String
  | .str s => s
  | v => pyRepr v

/-- Is `pat` a contiguous sublist of the second argument? -/
def listHasSub (pat : List Char) : List Char → Bool
  | [] => pat.isEmpty
  | l@(_ :: rest) => pat.isPrefixOf l || listHasSub pat rest

/-- Python substring test `pat in s`. -/
def strContains (s pat : String) : Bool := listHasSub pat.data s.data

/-- Python `a or b` on modelled values: `a` if truthy, else `b`. -/
def pyOr (a b : JVal) : JVal := if jTruthy a then a else b

/-- `d.get(k, dflt)` on a modelled dict (association list, first key wins). -/
def dictGetD (d : List (String × JVal)) (k : String) (dflt : JVal) : JVal :=
  ((d.lookup k).getD dflt)

/-- `s.upper()` (ASCII, matching Python on the data in play); written via
the character list so that it evaluates by kernel reduction. -/
def pyUpper (s : String) : String := String.mk (s.data.map Char.toUpper)

/-- `s.lower()` (ASCII). -/
def pyLower (s : String) : String := String.mk (s.data.map Char.toLower)

/-- `sep.join l` / `" ".join(...)`. -/
def joinWith (sep : String) : List String → String
  | [] => ""
  | [x] => x
  | x :: xs => x ++ sep ++ joinWith sep xs

/-- Decimal value of a digit run. -/
def digitsToNat (l : List Char) : Nat :=
  l.foldl (fun a c => a * 10 + (c.toNat - 48)) 0

/-- `s.replace(old, new)` on character lists, all non-overlapping
occurrences left to right; fuelled by the input length (each step consumes
at least one character when `old` is nonempty). -/
def replaceCharsFuel (old new : List Char) : Nat → List Char → List Char
  | 0, l => l
  | _ + 1, [] => []
  | n + 1, c :: rest =>
    if !old.isEmpty && old.isPrefixOf (c :: rest) then
      new ++ replaceCharsFuel old new n ((c :: rest).drop old.length)
    else c :: replaceCharsFuel old new n rest

/-- Python `s.replace(old, new)`. -/
def strReplace (s old new : String) : String :=
  String.mk (replaceCharsFuel old.data new.data s.data.length s.data)

/-- Maximal whitespace-separated tokens of a character list
(Python `s.split()` with no argument); fuelled by the input length, which
each step strictly decreases, so the fuel never runs out first. -/
def wsTokensFuel : Nat → List Char → List String
  | 0, _ => []
  | _ + 1, [] => []
  | n + 1, c :: rest =>
    if c.isWhitespace then wsTokensFuel n rest
    else
      String.mk (c :: rest.takeWhile (fun d => !d.isWhitespace)) ::
        wsTokensFuel n (rest.dropWhile (fun d => !d.isWhitespace))

/-- Python `s.strip()`. -/
def strTrim (s : String) : String :=
  String.mk (((s.data.dropWhile Char.isWhitespace).reverse.dropWhile
    Char.isWhitespace).reverse)

/-- Python `s.split()`: split on whitespace, dropping empty pieces. -/
def pySplit (s : String) : List String := wsTokensFuel s.data.length s.data

/-! ## `Module1Matcher.py`: assembly catalog and feature records -/

/-- A stored breaker quantity: a number, or the literal token `"multiple"`
(`Module1Matcher._load_assembly_specs`). -/
inductive SpecQty where
  | num : Int → SpecQty
  | multiple : SpecQty
deriving DecidableEq

/-- One entry of the hard-coded `assembly_specs` table
(`Module1Matcher._load_assembly_specs`). -/
structure AssemblySpec where
  height : String
  width : String
  depth : String
  breaker_type : String
  breaker_quantity : SpecQty
  mount : String
  access : String
  project : String
deriving DecidableEq

/-- The hard-coded catalog `self.assembly_specs` from
`Module1Matcher._load_assembly_specs`, in declaration (= dict insertion)
order. -/
def assembly_specs : List (String × AssemblySpec) :=
  [ ("123456-0100-101",
      ⟨"90", "40", "60", "ABB SACE Emax 6.2", .num 1, "Fixed", "Front and rear",
       "UL891-S41A Section 101"⟩),
    ("123456-0100-102",
      ⟨"90", "40", "60", "ABB SACE Emax 2.2", .num 3, "Fixed", "Front and rear",
       "UL891-S41A Section 102"⟩),
    ("123456-0100-103",
      ⟨"90", "40", "60", "ABB SACE Emax 2.2", .num 2, "Fixed", "Front and rear",
       "UL891-S41A Section 103"⟩),
    ("123456-0100-201",
      ⟨"90", "40", "60", "ABB SACE Emax 6.2", .num 1, "Drawout", "Front only",
       "UL891-S41B Section 101"⟩),
    ("123456-0100-202",
      ⟨"90", "40", "60", "ABB SACE Emax 2.2", .num 1, "Drawout", "Front only",
       "UL891-S41B Section 102"⟩),
    ("123456-0100-203",
      ⟨"90", "40", "60", "ABB SACE Emax 2.2", .num 2, "Drawout", "Front only",
       "UL891-S41B Section 103"⟩),
    ("123456-0100-204",
      ⟨"90", "42", "60", "ABB SACE Tmax", .multiple, "Fixed", "Front only",
       "UL891-S41B Section 104"⟩),
    ("123456-0100-301",
      ⟨"90", "30", "48", "ABB SACE Emax 2.2", .num 1, "Drawout", "Front and rear",
       "UL891-S4S1 Section 101"⟩),
    ("123456-0100-302",
      ⟨"90", "42", "48", "ABB SACE Tmax", .multiple, "Fixed", "Front and rear",
       "UL891-S4S1 Section 102"⟩),
    ("123456-0100-401",
      ⟨"78", "42", "33", "Square D", .multiple, "Fixed", "Front only",
       "400kW GVX Section 101"⟩) ]

/-- The feature record built by the extraction functions
(`extract_features_from_quote`, `match_from_user_input`): every field
optional, `none` modelling Python `None`. -/
structure FeatureRecord where
  height : Option String
  width : Option String
  depth : Option String
  breaker_type : Option String
  breaker_quantity : Option Int
  access : Option String
  mount : Option String
deriving DecidableEq

/-- Truthiness of an optional string field (`features.get(k)` used as a
condition): truthy iff present and nonempty. -/
def optStrTruthy : Option String → Bool
  | some s => s ≠ ""
  | none => false

/-- Truthiness of an optional integer field: truthy iff present and nonzero. -/
def optIntTruthy : Option Int → Bool
  | some n => n ≠ 0
  | none => false

/-! ## `Module1Matcher.py`: normalization and matching -/

/-- `Module1Matcher._normalize_breaker_type`: map a free-form breaker string
to its canonical form via case-insensitive substring tests, first match in
source order wins; unknown strings pass through unchanged. -/
def normalize_breaker_type (breaker_str : String) : String :=
  if breaker_str = "" then ""
  else
    let breaker_upper := pyUpper breaker_str
    if strContains breaker_upper "EMAX 6.2" || strContains breaker_upper "E6.2" then
      "ABB SACE Emax 6.2"
    else if strContains breaker_upper "EMAX 4.2" || strContains breaker_upper "E4.2" then
      "ABB SACE Emax 4.2"
    else if strContains breaker_upper "EMAX 2.2" || strContains breaker_upper "E2.2" then
      "ABB SACE Emax 2.2"
    else if strContains breaker_upper "TMAX" then
      "ABB SACE Tmax"
    else if strContains breaker_upper "SQUARE D" then
      "Square D"
    else breaker_str

/-- `Module1Matcher._breaker_compatible`: exact equality, or common
manufacturer and model terms (ABB+EMAX, ABB+TMAX, or SQUARE on both sides)
among the whitespace-split word sets. -/
def breaker_compatible (feature_breaker spec_breaker : String) : Bool :=
  if feature_breaker = spec_breaker then true
  else
    let feature_terms := pySplit feature_breaker
    let spec_terms := pySplit spec_breaker
    if feature_terms.contains "ABB" && spec_terms.contains "ABB"
        && feature_terms.contains "EMAX" && spec_terms.contains "EMAX" then true
    else if feature_terms.contains "ABB" && spec_terms.contains "ABB"
        && feature_terms.contains "TMAX" && spec_terms.contains "TMAX" then true
    else if feature_terms.contains "SQUARE" && spec_terms.contains "SQUARE" then true
    else false

/-- The breaker-quantity clause of `Module1Matcher._features_match`: a
specified (truthy) query quantity conflicts with the stored one unless the
stored quantity is the token `"multiple"`. -/
def qtyMismatch (fq : Option Int) (sq_ : SpecQty) : Bool :=
  optIntTruthy fq &&
    (match sq_ with
     | .multiple => false
     | .num m => decide (fq.getD 0 ≠ m))

/-- `Module1Matcher._features_match`: every field that is present (truthy)
on the query must agree with the stored spec; dimensions by exact string
equality, breaker type by `breaker_compatible` on uppercased strings,
quantity per `qtyMismatch`, access and mount case-insensitively. -/
def features_match (features : FeatureRecord) (specs : AssemblySpec) : Bool :=
  if optStrTruthy features.height && decide (features.height.getD "" ≠ specs.height) then
    false
  else if optStrTruthy features.width && decide (features.width.getD "" ≠ specs.width) then
    false
  else if optStrTruthy features.depth && decide (features.depth.getD "" ≠ specs.depth) then
    false
  else if optStrTruthy features.breaker_type &&
      !breaker_compatible (pyUpper (features.breaker_type.getD "")) (pyUpper specs.breaker_type) then
    false
  else if qtyMismatch features.breaker_quantity specs.breaker_quantity then
    false
  else if optStrTruthy features.access &&
      decide (pyLower (features.access.getD "") ≠ pyLower specs.access) then
    false
  else if optStrTruthy features.mount &&
      decide (pyLower (features.mount.getD "") ≠ pyLower specs.mount) then
    false
  else true

/-- Stable insertion of a scored entry into a descending list: the incoming
(earlier) entry goes before the first entry whose score it does not beat,
which reproduces the stable descending sort of Python `list.sort` with
`reverse=True`. -/
def insertScoreDesc (x : String × Nat) : List (String × Nat) → List (String × Nat)
  | [] => [x]
  | y :: ys => if x.2 ≥ y.2 then x :: y :: ys else y :: insertScoreDesc x ys

/-- Stable descending sort by score (second component). -/
def sortScoresDesc : List (String × Nat) → List (String × Nat)
  | [] => []
  | x :: xs => insertScoreDesc x (sortScoresDesc xs)

/-- `Module1Matcher._find_closest_matches`: score every catalog entry
(+3 per equal dimension, +2 for a compatible breaker type when one was
specified), sort descending by score (stable, so ties keep catalog
declaration order), and keep the first `top_n`. -/
def find_closest_matches (features : FeatureRecord) (top_n : Nat) : List (String × Nat) :=
  let scores := assembly_specs.map (fun p =>
    let score : Nat :=
      (if features.height = some p.2.height then 3 else 0) +
      (if features.width = some p.2.width then 3 else 0) +
      (if features.depth = some p.2.depth then 3 else 0) +
      (if optStrTruthy features.breaker_type &&
          breaker_compatible (pyUpper (features.breaker_type.getD ""))
            (pyUpper p.2.breaker_type)
       then 2 else 0)
    (p.1, score))
  (sortScoresDesc scores).take top_n

/-- The `project` field of a catalog entry (`self.assembly_specs[a]["project"]`);
only ever looked up for ids drawn from the catalog, so the default is dead. -/
def specProject (assembly : String) : String :=
  ((assembly_specs.lookup assembly).map (fun s => s.project)).getD ""

/-- The formatted spec line of a catalog entry used in the no-match message. -/
def specLine (asm : String) : String :=
  let s := ((assembly_specs.lookup asm).getD ⟨"", "", "", "", .multiple, "", "", ""⟩)
  "   • " ++ asm ++ ": " ++ s.height ++ quoteD ++ "H x " ++ s.width ++ quoteD ++ "W x "
    ++ s.depth ++ quoteD ++ "D, " ++ s.breaker_type ++ "\n"

/-- `Module1Matcher.match_assembly`.  The Python method mutates its
`features` argument (normalizing `breaker_type` in place) and returns
`(matched_assemblies, status, message)`; the mutation is made explicit by
returning the updated record as the first component, so the result is
`(features, matches, status, message)`.  `tp` models
`self.assemblies[a]["total_parts"]` (the per-assembly row count of the
bundled spreadsheet, which is not part of the source tree; per the spec,
every catalog id has its rows there), used only in the exact-match
message. -/
def match_assembly (tp : String → Nat) (features0 : FeatureRecord) :
    FeatureRecord × List String × String × String :=
  let features :=
    if optStrTruthy features0.breaker_type then
      { features0 with
        breaker_type := some (normalize_breaker_type (features0.breaker_type.getD "")) }
    else features0
  let found := (assembly_specs.filter (fun p => features_match features p.2)).map
    (fun p => p.1)
  if found.length = 1 then
    let assembly := found.headD ""
    let total_parts := tp assembly
    let project := specProject assembly
    let message := "✅ Found exact match: Assembly " ++ assembly ++
      "\n   Project: " ++ project ++
      "\n   Total parts: " ++ toString total_parts
    (features, found, "exact_match", message)
  else if found.length > 1 then
    let message := "⚠️ Found " ++ toString found.length ++
      " assemblies matching your specs.\n   Assemblies: " ++
      joinWith ", " found ++
      "\n   Please specify:\n   • Access type: Front only OR Front and rear?\n   • Mount type: Fixed OR Drawout?"
    (features, found, "ambiguous", message)
  else
    let closest := find_closest_matches features 3
    let message := closest.foldl (fun acc p => acc ++ specLine p.1)
      "❌ No exact match found.\n   Closest options:\n"
    (features, [], "no_match", message)

/-! ## `Module1Matcher.py`: spreadsheet load and BOM generation -/

/-- One row of the bundled `Module 1.xlsx` parts table, with the columns the
code reads (`Assembly Number`, `Component Part Number`, `Description`,
`Quantity Per`, `Item & BOM Sequence Number`).  The spreadsheet itself is
not part of the source tree, so the rows are left abstract. -/
structure XlsxRow where
  assembly_number : String
  part_number : String
  description : String
  quantity : Int
  sequence : Int

/-- Per-assembly data built by `Module1Matcher.load_data` (the inferred
`specs` field is omitted: no code path of the claims reads it). -/
structure AssemblyData where
  components : List XlsxRow
  total_parts : Nat

/-- First-occurrence deduplication, the order `pandas.unique` yields. -/
def dedupFirst (l : List String) : List String :=
  l.foldl (fun acc x => if acc.contains x then acc else acc ++ [x]) []

/-- `Module1Matcher.load_data`: group the spreadsheet rows by
`Assembly Number` (first-occurrence order), recording each group as the
components list together with its row count (`total_parts`). -/
def load_assemblies (df : List XlsxRow) : List (String × AssemblyData) :=
  (dedupFirst (df.map (fun r => r.assembly_number))).map (fun num =>
    ( num,
      { components := df.filter (fun r => r.assembly_number = num),
        total_parts := (df.filter (fun r => r.assembly_number = num)).length } ))

/-- One entry of the `components` list built by `generate_bom`. -/
structure BomComponent where
  part_number : String
  description : String
  quantity : Int
  sequence : Int

/-- The BOM dict built by `generate_bom` for a known assembly. -/
structure Bom where
  assembly_number : String
  project : String
  specifications : AssemblySpec
  total_parts : Nat
  components : List BomComponent

/-- `generate_bom` returns either the not-found error dict (with the full
list of known assembly ids) or a `Bom`. -/
inductive BomResult where
  | err (error : String) (available_assemblies : List String)
  | bom (b : Bom)

/-- `Module1Matcher.generate_bom`.  `assemblies` models `self.assemblies`
as loaded from the spreadsheet.  An id that is present in `assemblies` but
absent from the hard-coded `assembly_specs` makes the Python code raise
`KeyError` at `self.assembly_specs[assembly_num]`; that raise is the
`Except.error` case. -/
def generate_bom (assemblies : List (String × AssemblyData)) (assembly_num : String) :
    Except String BomResult :=
  if !(assemblies.map (fun p => p.1)).contains assembly_num then
    .ok (.err ("Assembly " ++ assembly_num ++ " not found")
      (assemblies.map (fun p => p.1)))
  else
    match assemblies.lookup assembly_num, assembly_specs.lookup assembly_num with
    | some assembly_data, some sp =>
      .ok (.bom
        { assembly_number := assembly_num,
          project := sp.project,
          specifications := sp,
          total_parts := assembly_data.total_parts,
          components := assembly_data.components.map (fun c =>
            ⟨c.part_number, c.description, c.quantity, c.sequence⟩) })
    | some _, none => .error "KeyError"
    | none, _ => .error "KeyError"

/-! ## `Module1Matcher.py`: feature extraction from quote JSON

Python raise points are modelled as `Except.error` with the exception class
name as the message. -/

/-- `v.get(k, dflt)`: `AttributeError` when `v` is not a dict. -/
def jGet (v : JVal) (k : String) (dflt : JVal) : Except String JVal :=
  match v with
  | .obj kvs => .ok (dictGetD kvs k dflt)
  | _ => .error "AttributeError"

/-- `v[0]`: first element of a list, first character of a nonempty string;
`IndexError` on empty sequences, `KeyError` on dicts (no key `0`),
`TypeError` otherwise. -/
def pyIndex0 : JVal → Except String JVal
  | .arr (x :: _) => .ok x
  | .arr [] => .error "IndexError"
  | .str s => if s = "" then .error "IndexError" else .ok (.str (String.mk (s.data.take 1)))
  | .obj _ => .error "KeyError"
  | .null => .error "TypeError"
  | .num _ => .error "TypeError"

/-- `len(v)` for sized values, `TypeError` otherwise. -/
def pyLen : JVal → Except String Int
  | .arr l => .ok l.length
  | .str s => .ok s.length
  | .obj l => .ok l.length
  | _ => .error "TypeError"

/-- `[str(r) for r in v]`: iterate a list (elements), string (characters) or
dict (keys); `TypeError` on non-iterables. -/
def pyIterStrs : JVal → Except String (List String)
  | .arr l => .ok (l.map pyStr)
  | .str s => .ok (s.data.map String.singleton)
  | .obj kvs => .ok (kvs.map (fun p => p.1))
  | _ => .error "TypeError"

/-- Leftmost maximal digit run of a character list
(`re.search(r"(\d+)", s)` group 1). -/
def firstDigitRun : List Char → Option String
  | [] => none
  | c :: rest =>
    if c.isDigit then some (String.mk (c :: rest.takeWhile Char.isDigit))
    else firstDigitRun rest

/-- `Module1Matcher._normalize_dimension`: `None` for falsy input, else the
first digit run of `str(input)` (or `None` when it has no digit). -/
def normalize_dimension (v : JVal) : Option String :=
  if !jTruthy v then none
  else firstDigitRun (pyStr v).data

/-- The features dict as `extract_features_from_quote` builds it: the
breaker type slot holds whatever JSON value `main_circuit_breaker["type"]`
(or `breakers[0]["type"]`) contained. -/
structure RawFeatures where
  height : Option String
  width : Option String
  depth : Option String
  breaker_type : Option JVal
  breaker_quantity : Option Int
  access : Option String
  mount : Option String

/-- `Module1Matcher.extract_features_from_quote`, with every Python raise
point surfaced as `Except.error`. -/
def extract_features_from_quote (quote_json : JVal) : Except String RawFeatures := do
  let sections ← jGet quote_json "sections" (.arr [])
  let (h, w, d, btype, bqty) ←
    if jTruthy sections then do
      let first_section ← pyIndex0 sections
      let dims ← jGet first_section "dimensions" (.obj [])
      let (h, w, d) :=
        match dims with
        | .obj dkvs =>
          (normalize_dimension (dictGetD dkvs "height" (.str "")),
           normalize_dimension (dictGetD dkvs "width" (.str "")),
           normalize_dimension (dictGetD dkvs "depth" (.str "")))
        | _ => (none, none, none)
      let main_breaker ← jGet first_section "main_circuit_breaker" (.obj [])
      let breakers ← jGet first_section "breakers" (.arr [])
      if jTruthy main_breaker then do
        let t ← jGet main_breaker "type" (.str "")
        pure (h, w, d, some t, some (1 : Int))
      else if jTruthy breakers then do
        let b0 ← pyIndex0 breakers
        let t ← jGet b0 "type" (.str "")
        let n ← pyLen breakers
        pure (h, w, d, some t, some n)
      else
        pure (h, w, d, none, none)
    else
      pure (none, none, none, none, none)
  let requirements :=
    match quote_json with
    | .obj kvs => dictGetD kvs "special_construction_requirements" (.arr [])
    | _ => .arr []
  let parts ← pyIterStrs requirements
  let req_text := pyLower (joinWith " " parts)
  let access :=
    if strContains req_text "front and rear" || strContains req_text "rear access" then
      some "Front and rear"
    else if strContains req_text "front access" || strContains req_text "front only" then
      some "Front only"
    else none
  let mount :=
    if strContains req_text "drawout" || strContains req_text "draw-out" then some "Drawout"
    else if strContains req_text "fixed" then some "Fixed"
    else none
  pure ⟨h, w, d, btype, bqty, access, mount⟩

/-- Convert the dynamically typed breaker slot to the typed record.  A
truthy non-string value would make Python raise `AttributeError` at the
`.upper()` call inside `match_assembly` (still inside the caller's `try`
block), so that raise is placed here; a falsy non-string behaves exactly
like an unset field in every downstream (truthiness-gated) use and is
mapped to `none`. -/
def coerceBreaker : Option JVal → Except String (Option String)
  | none => .ok none
  | some (.str s) => .ok (some s)
  | some v => if jTruthy v then .error "AttributeError" else .ok none

/-- Typed view of the extracted features dict. -/
def toFeatureRecord (r : RawFeatures) : Except String FeatureRecord := do
  let bt ← coerceBreaker r.breaker_type
  pure ⟨r.height, r.width, r.depth, bt, r.breaker_quantity, r.access, r.mount⟩

/-- The result dict of `match_quote_to_assembly` / `match_from_user_input`.
`extracted_features = none` models the literal empty dict of the
error branch. -/
structure MatchResult where
  status : String
  message : String
  matched_assemblies : List String
  extracted_features : Option FeatureRecord
  bom : Option BomResult

/-- The body of the `try` block of `match_quote_to_assembly`: extract,
match, and generate the BOM on an exact match. -/
def match_quote_body (assemblies : List (String × AssemblyData)) (tp : String → Nat)
    (quote_json : JVal) : Except String MatchResult :=
  match extract_features_from_quote quote_json with
  | .error e => .error e
  | .ok raw =>
    match toFeatureRecord raw with
    | .error e => .error e
    | .ok features =>
      match match_assembly tp features with
      | (features2, found, status, message) =>
        match
          (if status == "exact_match" && !found.isEmpty then
            match found with
            | a :: _ => Except.map some (generate_bom assemblies a)
            | [] => .ok none
          else .ok none : Except String (Option BomResult)) with
        | .error e => .error e
        | .ok bom =>
          .ok { status := status, message := message, matched_assemblies := found,
                extracted_features := some features2, bom := bom }

/-- `match_quote_to_assembly`: the catch-all wrapper around the body,
converting any raise into the `error`-status result with an empty features
dict, no matches and no BOM. -/
def match_quote_to_assembly (assemblies : List (String × AssemblyData)) (tp : String → Nat)
    (quote_json : JVal) : MatchResult :=
  match match_quote_body assemblies tp quote_json with
  | .ok r => r
  | .error e =>
    { status := "error", message := "Error during matching: " ++ e,
      matched_assemblies := [], extracted_features := none, bom := none }

/-! ## `Module1Matcher.py`: free-text parsing (`match_from_user_input`)

The three dimension regexes have the shape
`(\d+)\s*(?:INCH|IN|"|')*\s*(?:H|HIGH|HEIGHT)` (with `W`/`WIDE`/`WIDTH` and
`D`/`DEEP`/`DEPTH` for width and depth).  They are modelled directly:

* `re.search` returns the leftmost match; group 1 is the digit run.
* `(\d+)` never gives digits back on backtracking: no later element of the
  pattern can consume a digit, so the run is always maximal, and when the
  tail fails, every start position inside the same digit run fails
  identically, so the scan resumes after the run.
* the trailing alternation `(?:H|HIGH|HEIGHT)` succeeds at a position if
  and only if its first, single-letter alternative does, so it is the
  single marker character.
-/

/-- `\s*` followed by the continuation `k`, with backtracking: succeeds if
`k` holds after removing some (possibly empty) prefix of whitespace. -/
def spacesThen (k : List Char → Bool) : List Char → Bool
  | [] => k []
  | c :: cs => k (c :: cs) || (c.isWhitespace && spacesThen k cs)

/-- `(?:a1|a2|...)*` followed by the continuation `k`, with backtracking;
fuelled by the input length (every iteration consumes at least one
character, so the fuel never runs out before the input does). -/
def altsThenFuel (alts : List String) (k : List Char → Bool) : Nat → List Char → Bool
  | 0, l => k l
  | n + 1, l =>
    k l || alts.any (fun u =>
      !u.isEmpty && u.data.isPrefixOf l && altsThenFuel alts k n (l.drop u.length))

/-- Entry point for the fuelled alternation star. -/
def altsThen (alts : List String) (k : List Char → Bool) (l : List Char) : Bool :=
  altsThenFuel alts k l.length l

/-- Does the list start with the character `c`? -/
def headIs (c : Char) : List Char → Bool
  | [] => false
  | d :: _ => d = c

/-- The unit alternatives `INCH|IN|"|'` of the dimension regexes. -/
def dimUnits : List String := ["INCH", "IN", quoteD, quoteS]

/-- The tail `\s*(?:INCH|IN|"|')*\s*M` of a dimension regex, where `M` is
the marker character (`H`, `W` or `D`). -/
def dimTail (marker : Char) (l : List Char) : Bool :=
  spacesThen (fun l1 =>
    altsThen dimUnits (fun l2 => spacesThen (headIs marker) l2) l1) l

/-- `re.search` for a pattern of the form `(\d+)⟨tail⟩`: scan left to
right; at each digit run, take the maximal run and test the tail; on
failure resume after the run.  Returns group 1. -/
def searchDigitsThenFuel (tail : List Char → Bool) : Nat → List Char → Option String
  | 0, _ => none
  | _ + 1, [] => none
  | n + 1, c :: rest =>
    if c.isDigit then
      let run := c :: rest.takeWhile Char.isDigit
      let after := rest.dropWhile Char.isDigit
      if tail after then some (String.mk run)
      else searchDigitsThenFuel tail n after
    else searchDigitsThenFuel tail n rest

/-- Entry point of the scan (the fuel is the input length, which every
step strictly decreases). -/
def searchDigitsThen (tail : List Char → Bool) (l : List Char) : Option String :=
  searchDigitsThenFuel tail l.length l

/-- One dimension regex of `match_from_user_input`, returning group 1. -/
def pySearchDim (marker : Char) (s : String) : Option String :=
  searchDigitsThen (dimTail marker) s.data

/-- The word alternatives `EMAX|TMAX|BREAKER` of the quantity regex. -/
def qtyWords : List String := ["EMAX", "TMAX", "BREAKER"]

/-- Does one of the quantity words start here? -/
def qtyWordHere (l : List Char) : Bool :=
  qtyWords.any (fun u => u.data.isPrefixOf l)

/-- The tail `\s*(?:X\s*)?(?:EMAX|TMAX|BREAKER)` of the quantity regex
`(\d+)\s*(?:X\s*)?(?:EMAX|TMAX|BREAKER)`. -/
def qtyTail (l : List Char) : Bool :=
  spacesThen (fun l1 =>
    qtyWordHere l1 ||
      (match l1 with
       | 'X' :: rest => spacesThen qtyWordHere rest
       | _ => false)) l

/-- The quantity regex of `match_from_user_input`: `int(group 1)`. -/
def pySearchQty (s : String) : Option Int :=
  (searchDigitsThen qtyTail s.data).map (fun ds => (digitsToNat ds.data : Nat))

/-- The feature dict built by `match_from_user_input` from the uppercased
user text, before matching. -/
def parse_user_features (user_input : String) : FeatureRecord :=
  let user_upper := pyUpper user_input
  { height := pySearchDim 'H' user_upper,
    width := pySearchDim 'W' user_upper,
    depth := pySearchDim 'D' user_upper,
    breaker_type :=
      if strContains user_upper "EMAX 6.2" then some "ABB SACE Emax 6.2"
      else if strContains user_upper "EMAX 2.2" then some "ABB SACE Emax 2.2"
      else if strContains user_upper "TMAX" then some "ABB SACE Tmax"
      else if strContains user_upper "SQUARE D" then some "Square D"
      else none,
    breaker_quantity := pySearchQty user_upper,
    access :=
      if strContains user_upper "FRONT AND REAR" || strContains user_upper "REAR ACCESS" then
        some "Front and rear"
      else if strContains user_upper "FRONT ONLY" || strContains user_upper "FRONT ACCESS" then
        some "Front only"
      else none,
    mount :=
      if strContains user_upper "DRAWOUT" || strContains user_upper "DRAW-OUT" then
        some "Drawout"
      else if strContains user_upper "FIXED" then some "Fixed"
      else none }

/-- The body of the `try` block of `match_from_user_input`: parse the text,
match, and generate the BOM on an exact match.  Its only modelled raise
point is the `KeyError` inside `generate_bom`. -/
def user_input_body (assemblies : List (String × AssemblyData)) (tp : String → Nat)
    (user_input : String) : Except String MatchResult :=
  match match_assembly tp (parse_user_features user_input) with
  | (features2, found, status, message) =>
    match
      (if status == "exact_match" && !found.isEmpty then
        match found with
        | a :: _ => Except.map some (generate_bom assemblies a)
        | [] => .ok none
      else .ok none : Except String (Option BomResult)) with
    | .error e => .error e
    | .ok bom =>
      .ok { status := status, message := message, matched_assemblies := found,
            extracted_features := some features2, bom := bom }

/-- `match_from_user_input`: the catch-all wrapper around the body. -/
def match_from_user_input (assemblies : List (String × AssemblyData)) (tp : String → Nat)
    (user_input : String) : MatchResult :=
  match user_input_body assemblies tp user_input with
  | .ok r => r
  | .error e =>
    { status := "error", message := "Error parsing input: " ++ e,
      matched_assemblies := [], extracted_features := none, bom := none }

/-! ## `quote_search_app_with_module1.py`: box number generation

`kb` is the knowledge-base JSON loaded by the app (`None` on load failure).
The file itself is not in the source tree; per the spec it is a dict of
lookup tables, modelled by the `KnowledgeBase` structure (a loaded kb is a
nonempty dict, so `if not kb` is modelled as `kb.isSome` being false). -/

/-- The knowledge-base tables read by the box-number functions:
`dimension_mappings` (per dimension type, value string → letter code),
`finish_matching.matches` (keyword → code) and `finish_codes`
(code → name). -/
structure KnowledgeBase where
  dimension_mappings : List (String × List (String × String))
  finish_matches : List (String × String)
  finish_codes : List (String × String)

/-- Python `float(s)` restricted to plain decimal literals
(optional sign, digits, optional fractional part), as scaled integer
`(mantissa, e)` meaning `mantissa / 10^e`; `none` models `ValueError`.
Exponents/specials (`1e3`, `inf`) are not modelled: no knowledge-base
dimension key uses them. -/
def parseDecimal? (s : String) : Option (Int × Nat) :=
  let (sign, rest) :=
    match s.data with
    | '-' :: r => ((-1 : Int), r)
    | '+' :: r => ((1 : Int), r)
    | r => ((1 : Int), r)
  let intPart := rest.takeWhile Char.isDigit
  let rest2 := rest.dropWhile Char.isDigit
  match rest2 with
  | [] =>
    if intPart.isEmpty then none
    else some (sign * (digitsToNat intPart : Nat), 0)
  | '.' :: frac =>
    if frac.all Char.isDigit && !(intPart.isEmpty && frac.isEmpty) then
      some (sign * (digitsToNat (intPart ++ frac) : Nat), frac.length)
    else none
  | _ => none

/-- Equality of two scaled decimals (`float(key) == num_value`). -/
def decEqVal (a b : Int × Nat) : Bool :=
  a.1 * (10 : Int) ^ b.2 = b.1 * (10 : Int) ^ a.2

/-- The numeric-fallback loop of `get_dimension_code`: first mapping key
(skipping `"CUSTOM"`) that parses to the same number wins; unparsable keys
are skipped (`except: continue`); `"Z"` when none matches. -/
def findNumericCode (mappings : List (String × String)) (nv : Int × Nat) : String :=
  match mappings with
  | [] => "Z"
  | (key, code) :: rest =>
    if key = "CUSTOM" then findNumericCode rest nv
    else
      match parseDecimal? key with
      | some kv => if decEqVal kv nv then code else findNumericCode rest nv
      | none => findNumericCode rest nv

/-- `get_dimension_code`: `"Z"` without a kb or a truthy value; otherwise
exact string lookup in the per-dimension mapping (after stripping quotes
and whitespace from `str(value)`), then numeric-equality lookup, then
`"Z"`. -/
def get_dimension_code (dimension_type : String) (value : JVal)
    (kb : Option KnowledgeBase) : String :=
  if !kb.isSome || !jTruthy value then "Z"
  else
    let mappings :=
      match kb with
      | some k => (k.dimension_mappings.lookup dimension_type).getD []
      | none => []
    let str_value := strTrim (strReplace (strReplace (pyStr value) quoteD "") quoteS "")
    match mappings.lookup str_value with
    | some code => code
    | none =>
      match parseDecimal? str_value with
      | none => "Z"
      | some num_value => findNumericCode mappings num_value

/-- `get_front_cornerpost_code`: the manufacturer × mounting decision tree
over literal keyword lists, with the seismic-or-short fallback when no
breaker (or an unknown manufacturer) is given. -/
def get_front_cornerpost_code (section_data : List (String × JVal)) (has_seismic : Bool)
    (kb : Option KnowledgeBase) : String :=
  if !kb.isSome then "S"
  else
    let breaker_mfr := pyUpper (pyStr (pyOr
      (dictGetD section_data "breaker_manufacturer" .null) (.str "")))
    let mounting := pyUpper (pyStr (pyOr
      (dictGetD section_data "mounting_type" .null) (.str "")))
    let has_breaker := breaker_mfr ≠ "" &&
      !(["NONE", "N/A", "", "NULL"].contains breaker_mfr)
    if !has_breaker then
      if has_seismic then "2" else "S"
    else
      let abb_keywords := ["ABB", "EMAX", "SACE", "E2", "E4", "E6", "XT"]
      let schneider_keywords :=
        ["SCHNEIDER", "SQUARE D", "MASTERPACT", "NW", "NT", "MTZ", "COMPACT"]
      let is_abb := abb_keywords.any (fun kw => strContains breaker_mfr kw)
      let is_schneider := schneider_keywords.any (fun kw => strContains breaker_mfr kw)
      let drawout_keywords := ["DRAWOUT", "DRAW-OUT", "DO", "DRAW OUT", "WITHDRAWABLE"]
      let is_drawout := drawout_keywords.any (fun kw => strContains mounting kw)
      if is_abb then (if is_drawout then "D" else "C")
      else if is_schneider then (if is_drawout then "B" else "A")
      else if has_seismic then "2"
      else "S"

/-- `get_hardware_code`: `"B"` for Belleville, `"L"` otherwise (including
the default when no hardware text is given). -/
def get_hardware_code (hardware_text : JVal) : String :=
  if !jTruthy hardware_text then "L"
  else
    let hw_upper := pyUpper (pyStr hardware_text)
    if strContains hw_upper "BELLEVILLE" then "B"
    else if strContains hw_upper "LOCKNUT" || strContains hw_upper "LOCK" then "L"
    else "L"

/-- `get_seismic_code`: `"S"` when seismic was detected, `"X"` otherwise. -/
def get_seismic_code (has_seismic : Bool) : String :=
  if has_seismic then "S" else "X"

/-- The fixed seismic keyword list of `check_seismic`. -/
def seismic_keywords : List String :=
  ["SEISMIC", "IBC", "SEISMIC BRACING", "SEISMIC ANCHORING", "SEISMIC ZONE"]

/-- `check_seismic`: false for falsy input, else any keyword occurring in
`str(text).upper()`. -/
def check_seismic (text : JVal) : Bool :=
  if !jTruthy text then false
  else
    let text_upper := pyUpper (pyStr text)
    seismic_keywords.any (fun kw => strContains text_upper kw)

/-- `get_finish_code`: keyword table first, then the code table (substring
either way), default `"99"`. -/
def get_finish_code (finish_text : JVal) (kb : Option KnowledgeBase) : String :=
  match kb with
  | none => "99"
  | some k =>
    if !jTruthy finish_text then "99"
    else
      let finish_upper := pyUpper (pyStr finish_text)
      match (k.finish_matches.find? (fun p => strContains finish_upper (pyUpper p.1))).map
          (fun p => p.2) with
      | some code => code
      | none =>
        match (k.finish_codes.find? (fun p =>
            strContains finish_upper (pyUpper p.2) ||
            strContains (pyUpper p.2) finish_upper)).map (fun p => p.1) with
        | some code => code
        | none => "99"

/-- `get_cornerpost_description`: human-readable cornerpost names. -/
def get_cornerpost_description (code : String) : String :=
  (([("S", "Short"), ("2", "Seismic Short"), ("A", "Schneider Fixed"),
     ("B", "Schneider Drawout"), ("C", "ABB Fixed"), ("D", "ABB Drawout"),
     ("E", "Schneider DO no Cuts"), ("F", "ABB DO no Cuts"),
     ("1", "12" ++ quoteD ++ " Stretch"), ("Z", "Custom")] :
    List (String × String)).lookup code).getD "Unknown"

/-- The `breakdown` dict of `generate_box_number` (the Python keys
`prefix` and `static` are the fields `pre` and `static_part`). -/
structure BoxBreakdown where
  pre : String
  height : String
  width : String
  depth : String
  front_cornerpost : String
  hardware : String
  seismic : String
  static_part : String
  finish : String

/-- The dict returned by `generate_box_number`. -/
structure BoxNumberResult where
  box_number : String
  breakdown : BoxBreakdown

/-- `generate_box_number`: assemble the codes into
`APBX{H}{W}{D}{FRONT}{FRONT}{HW}{SEIS}-G01-{FINISH}`.  Note that the
seismic flag is `check_seismic` of the `seismic_inclusions` text OR of
`str(board_features)` — the string form of the whole board-features
dict. -/
def generate_box_number (section_data board_features : List (String × JVal))
    (kb : Option KnowledgeBase) : BoxNumberResult :=
  let height_code := get_dimension_code "height" (dictGetD section_data "height" .null) kb
  let width_code := get_dimension_code "width" (dictGetD section_data "width" .null) kb
  let depth_code := get_dimension_code "depth" (dictGetD section_data "depth" .null) kb
  let seismic_text := pyOr (dictGetD board_features "seismic_inclusions" (.str "")) (.str "")
  let has_seismic := check_seismic seismic_text ||
    check_seismic (.str (pyStr (.obj board_features)))
  let front_code := get_front_cornerpost_code section_data has_seismic kb
  let hardware_code := get_hardware_code (dictGetD section_data "hardware" (.str ""))
  let seismic_code := get_seismic_code has_seismic
  let finish_text := pyOr (dictGetD board_features "paint_finish" (.str ""))
    (dictGetD board_features "finish" (.str ""))
  let finish_code := get_finish_code finish_text kb
  let box_number := "APBX" ++ height_code ++ width_code ++ depth_code ++ front_code ++
    front_code ++ hardware_code ++ seismic_code ++ "-G01-" ++ finish_code
  { box_number := box_number,
    breakdown :=
      { pre := "APBX",
        height := height_code ++ " (from " ++
          pyStr (dictGetD section_data "height" (.str "?")) ++ quoteD ++ ")",
        width := width_code ++ " (from " ++
          pyStr (dictGetD section_data "width" (.str "?")) ++ quoteD ++ ")",
        depth := depth_code ++ " (from " ++
          pyStr (dictGetD section_data "depth" (.str "?")) ++ quoteD ++ ")",
        front_cornerpost := front_code ++ " (" ++
          get_cornerpost_description front_code ++ ")",
        hardware := hardware_code ++ " (" ++
          pyStr (dictGetD section_data "hardware" (.str "Locknut")) ++ ")",
        seismic := seismic_code ++ " (" ++
          (if has_seismic then "Seismic" else "No Seismic") ++ ")",
        static_part := "-G01-",
        finish := finish_code ++ " (" ++
          (if jTruthy finish_text then pyStr finish_text else "Unknown") ++ ")" } }

/-! ## Claims -/

/-- The FeatureRecord copied field-for-field from a stored catalog spec,
with the quantity left unset when the stored quantity is `"multiple"`
(the input construction described by claim C1). -/
def copyFeatures (s : AssemblySpec) : FeatureRecord :=
  { height := some s.height, width := some s.width, depth := some s.depth,
    breaker_type := some s.breaker_type,
    breaker_quantity :=
      match s.breaker_quantity with
      | .num n => some n
      | .multiple => none,
    access := some s.access, mount := some s.mount }

/-- The five canonical breaker strings of the normalization table. -/
def canonical_breakers : List String :=
  ["ABB SACE Emax 6.2", "ABB SACE Emax 4.2", "ABB SACE Emax 2.2",
   "ABB SACE Tmax", "Square D"]

/-- Claim C2: with every feature field null, every per-field check of
`_features_match` is skipped, so all 10 catalog entries match and
`match_assembly` reports `ambiguous` with the full id list. -/
theorem C2_all_null_ambiguous (tp : String → Nat) :
    (match_assembly tp ⟨none, none, none, none, none, none, none⟩).2.1 =
      ["123456-0100-101", "123456-0100-102", "123456-0100-103", "123456-0100-201",
       "123456-0100-202", "123456-0100-203", "123456-0100-204", "123456-0100-301",
       "123456-0100-302", "123456-0100-401"] ∧
    (match_assembly tp ⟨none, none, none, none, none, none, none⟩).2.2.1 = "ambiguous" :=
  ⟨rfl, rfl⟩

/-- Claim C3: for the query 90/40/60 with breaker `ABB SACE Emax 6.2` and
access/mount matching no entry, `match_assembly` finds no match, and the
fallback scoring (+3 per equal dimension, +2 for a compatible breaker,
stable descending sort) ranks `123456-0100-101` first with score 11, ahead
of `123456-0100-201` (score 11 as well, later in declaration order, visible
in the full ranking), the returned top 3 being the first three
declaration-order entries of score 11. -/
theorem C3_closest_ranking (tp : String → Nat) :
    (match_assembly tp ⟨some "90", some "40", some "60", some "ABB SACE Emax 6.2",
      none, some "Front and rear", some "Drawout"⟩).2.2.1 = "no_match" ∧
    (match_assembly tp ⟨some "90", some "40", some "60", some "ABB SACE Emax 6.2",
      none, some "Front and rear", some "Drawout"⟩).2.1 = [] ∧
    find_closest_matches ⟨some "90", some "40", some "60", some "ABB SACE Emax 6.2",
      none, some "Front and rear", some "Drawout"⟩ 3 =
      [("123456-0100-101", 11), ("123456-0100-102", 11), ("123456-0100-103", 11)] ∧
    find_closest_matches ⟨some "90", some "40", some "60", some "ABB SACE Emax 6.2",
      none, some "Front and rear", some "Drawout"⟩ 10 =
      [("123456-0100-101", 11), ("123456-0100-102", 11), ("123456-0100-103", 11),
       ("123456-0100-201", 11), ("123456-0100-202", 11), ("123456-0100-203", 11),
       ("123456-0100-204", 6), ("123456-0100-301", 5), ("123456-0100-302", 3),
       ("123456-0100-401", 0)] :=
  ⟨rfl, rfl, rfl, rfl⟩

/-- Claim C4: `_breaker_compatible` is symmetric on every pair of the five
canonical breaker strings (in fact each of its clauses — exact equality and
the common-term tests — is symmetric in its two arguments). -/
theorem C4_breaker_compatible_symm :
    ∀ i j : Fin canonical_breakers.length,
      breaker_compatible (canonical_breakers.get i) (canonical_breakers.get j) =
        breaker_compatible (canonical_breakers.get j) (canonical_breakers.get i) := by
  decide

/-- Claim C1 (amended): for every catalog id except `123456-0100-201` and
`123456-0100-202`, matching the FeatureRecord copied from the stored specs
(quantity left unset when the stored quantity is `"multiple"`) yields
status `exact_match` with exactly that id.  The two excluded ids defeat the
original claim: their records differ only in the breaker model
(`Emax 6.2` vs `Emax 2.2`), which the family-compatibility rule treats as
interchangeable, so each one's copied record matches both. -/
theorem C1_copied_specs_exact (tp : String → Nat) :
    ∀ p ∈ assembly_specs, p.1 ≠ "123456-0100-201" → p.1 ≠ "123456-0100-202" →
      (match_assembly tp (copyFeatures p.2)).2.1 = [p.1] ∧
      (match_assembly tp (copyFeatures p.2)).2.2.1 = "exact_match" := by
  intro p hp h1 h2
  fin_cases hp <;>
    first
      | exact absurd rfl h1
      | exact absurd rfl h2
      | exact ⟨rfl, rfl⟩

/-- Claim C1 counterexample: the record copied exactly from the stored
specs of `123456-0100-202` does not yield `exact_match` with
`[123456-0100-202]` — it matches `123456-0100-201` as well (breaker family
compatibility), so `match_assembly` reports `ambiguous` with both ids. -/
theorem C1_copied_specs_cex :
    ("123456-0100-202",
      (⟨"90", "40", "60", "ABB SACE Emax 2.2", .num 1, "Drawout", "Front only",
        "UL891-S41B Section 102"⟩ : AssemblySpec)) ∈ assembly_specs ∧
    (match_assembly (fun _ => 0) (copyFeatures ⟨"90", "40", "60", "ABB SACE Emax 2.2",
      .num 1, "Drawout", "Front only", "UL891-S41B Section 102"⟩)).2.2.1 = "ambiguous" ∧
    (match_assembly (fun _ => 0) (copyFeatures ⟨"90", "40", "60", "ABB SACE Emax 2.2",
      .num 1, "Drawout", "Front only", "UL891-S41B Section 102"⟩)).2.1 =
      ["123456-0100-201", "123456-0100-202"] :=
  ⟨by decide, rfl, rfl⟩

/-- Witness for C1 at the first catalog id. -/
theorem C1_copied_specs_exact_witness :
    (("123456-0100-101",
      (⟨"90", "40", "60", "ABB SACE Emax 6.2", .num 1, "Fixed", "Front and rear",
        "UL891-S41A Section 101"⟩ : AssemblySpec)) ∈ assembly_specs ∧
      ("123456-0100-101", (⟨"90", "40", "60", "ABB SACE Emax 6.2", .num 1, "Fixed",
        "Front and rear", "UL891-S41A Section 101"⟩ : AssemblySpec)).1 ≠ "123456-0100-201" ∧
      ("123456-0100-101", (⟨"90", "40", "60", "ABB SACE Emax 6.2", .num 1, "Fixed",
        "Front and rear", "UL891-S41A Section 101"⟩ : AssemblySpec)).1 ≠ "123456-0100-202") ∧
    ((match_assembly (fun _ => 0) (copyFeatures ⟨"90", "40", "60", "ABB SACE Emax 6.2",
        .num 1, "Fixed", "Front and rear", "UL891-S41A Section 101"⟩)).2.1 =
      ["123456-0100-101"] ∧
      (match_assembly (fun _ => 0) (copyFeatures ⟨"90", "40", "60", "ABB SACE Emax 6.2",
        .num 1, "Fixed", "Front and rear", "UL891-S41A Section 101"⟩)).2.2.1 =
        "exact_match") :=
  ⟨⟨List.Mem.head _, by decide, by decide⟩,
    C1_copied_specs_exact (fun _ => 0) _ (List.Mem.head _) (by decide) (by decide)⟩

/-- Membership of a key in the key list gives a successful lookup together
with membership of the found pair. -/
theorem lookup_of_keys_contains {β : Type} (l : List (String × β)) (k : String)
    (h : (l.map (fun p => p.1)).contains k = true) :
    ∃ v, l.lookup k = some v ∧ (k, v) ∈ l := by
  induction l with
  | nil => simp at h
  | cons p rest ih =>
    obtain ⟨a, b⟩ := p
    by_cases hk : k = a
    · subst hk
      exact ⟨b, by simp [List.lookup], List.mem_cons_self _ _⟩
    · have h' : (rest.map (fun p => p.1)).contains k = true := by
        simpa [hk] using h
      obtain ⟨v, hv, hm⟩ := ih h'
      refine ⟨v, ?_, List.mem_cons_of_mem _ hm⟩
      have hba : (k == a) = false := by simp [hk]
      simpa [List.lookup, hba] using hv

/-- Claim C5: any exception raised inside the body of
`match_quote_to_assembly` (extraction, matching or BOM generation) is
converted into the `error`-status result with the empty extracted-features
dict, an empty matched-assemblies list and a null BOM; the function itself
is total, so it never propagates the exception. -/
theorem C5_error_to_status (assemblies : List (String × AssemblyData)) (tp : String → Nat)
    (quote_json : JVal) (e : String)
    (h : match_quote_body assemblies tp quote_json = .error e) :
    match_quote_to_assembly assemblies tp quote_json =
      { status := "error", message := "Error during matching: " ++ e,
        matched_assemblies := [], extracted_features := none, bom := none } := by
  unfold match_quote_to_assembly
  rw [h]

/-- Witness for C5: a non-dict quote JSON raises at `quote_json.get`. -/
theorem C5_error_to_status_witness :
    match_quote_body [] (fun _ => 0) (.num 3) = .error "AttributeError" ∧
    match_quote_to_assembly [] (fun _ => 0) (.num 3) =
      { status := "error", message := "Error during matching: " ++ "AttributeError",
        matched_assemblies := [], extracted_features := none, bom := none } :=
  ⟨rfl, C5_error_to_status [] (fun _ => 0) (.num 3) "AttributeError" rfl⟩

/-- Claim C6: for an id absent from the loaded catalog, `generate_bom`
returns (never raises) the error object whose `available_assemblies` is the
full list of catalog ids. -/
theorem C6_unknown_id (assemblies : List (String × AssemblyData)) (assembly_num : String)
    (h : (assemblies.map (fun p => p.1)).contains assembly_num = false) :
    generate_bom assemblies assembly_num =
      .ok (.err ("Assembly " ++ assembly_num ++ " not found")
        (assemblies.map (fun p => p.1))) := by
  unfold generate_bom
  rw [h]
  rfl

/-- Witness for C6 on a one-assembly catalog and an unknown id. -/
theorem C6_unknown_id_witness :
    ((load_assemblies [⟨"123456-0100-101", "PART-1", "panel", 2, 1⟩]).map
      (fun p => p.1)).contains "999999" = false ∧
    generate_bom (load_assemblies [⟨"123456-0100-101", "PART-1", "panel", 2, 1⟩])
        "999999" =
      .ok (.err ("Assembly " ++ "999999" ++ " not found")
        ((load_assemblies [⟨"123456-0100-101", "PART-1", "panel", 2, 1⟩]).map
          (fun p => p.1))) :=
  ⟨rfl, C6_unknown_id _ _ rfl⟩

/-- Claim C7: for any spreadsheet contents and any id present in the loaded
catalog (and known to the spec table, as every observed catalog id is), the
generated BOM's `total_parts` equals the length of its components list. -/
theorem C7_bom_total_parts (df : List XlsxRow) (assembly_num : String)
    (h1 : ((load_assemblies df).map (fun p => p.1)).contains assembly_num = true)
    (h2 : (assembly_specs.lookup assembly_num).isSome = true) :
    ∃ b : Bom, generate_bom (load_assemblies df) assembly_num = .ok (.bom b) ∧
      b.total_parts = b.components.length := by
  obtain ⟨d, hd, hmem⟩ := lookup_of_keys_contains (load_assemblies df) assembly_num h1
  obtain ⟨sp, hsp⟩ := Option.isSome_iff_exists.mp h2
  have hinv : d.total_parts = d.components.length := by
    unfold load_assemblies at hmem
    obtain ⟨num, hnum, heq⟩ := List.mem_map.mp hmem
    obtain ⟨hnum2, hdata⟩ := Prod.mk.injEq .. |>.mp heq
    rw [← hdata]
  refine ⟨{ assembly_number := assembly_num, project := sp.project, specifications := sp,
            total_parts := d.total_parts,
            components := d.components.map (fun c =>
              ⟨c.part_number, c.description, c.quantity, c.sequence⟩) }, ?_, ?_⟩
  · unfold generate_bom
    rw [h1, hd, hsp]
    rfl
  · simpa using hinv

/-- Witness for C7 on a two-row spreadsheet for the first catalog id. -/
theorem C7_bom_total_parts_witness :
    ((load_assemblies [⟨"123456-0100-101", "PART-1", "panel", 2, 1⟩,
        ⟨"123456-0100-101", "PART-2", "door", 1, 2⟩]).map
      (fun p => p.1)).contains "123456-0100-101" = true ∧
    (assembly_specs.lookup "123456-0100-101").isSome = true ∧
    ∃ b : Bom,
      generate_bom (load_assemblies [⟨"123456-0100-101", "PART-1", "panel", 2, 1⟩,
          ⟨"123456-0100-101", "PART-2", "door", 1, 2⟩]) "123456-0100-101" =
        .ok (.bom b) ∧
      b.total_parts = b.components.length :=
  ⟨rfl, rfl, C7_bom_total_parts _ _ rfl rfl⟩

/-- Claim C8: for the section 72/42/56 with an ABB breaker mounted Drawout
and a board requiring seismic bracing (and any loaded knowledge base), the
front-cornerpost code is `"D"`, the seismic code is `"S"`, and the box
number is the fixed-format concatenation
`APBX{H}{W}{D}{FRONT}{FRONT}{HW}{SEIS}-G01-{FINISH}` with the
front-cornerpost code in two consecutive positions. -/
theorem C8_box_scenario (kbd : KnowledgeBase) :
    get_front_cornerpost_code
      [("height", JVal.str "72"), ("width", JVal.str "42"), ("depth", JVal.str "56"),
       ("breaker_manufacturer", JVal.str "ABB"), ("mounting_type", JVal.str "Drawout")]
      (check_seismic (pyOr (dictGetD [("seismic_inclusions",
          JVal.str "seismic bracing required")] "seismic_inclusions" (.str "")) (.str "")) ||
        check_seismic (.str (pyStr (.obj [("seismic_inclusions",
          JVal.str "seismic bracing required")]))))
      (some kbd) = "D" ∧
    get_seismic_code
      (check_seismic (pyOr (dictGetD [("seismic_inclusions",
          JVal.str "seismic bracing required")] "seismic_inclusions" (.str "")) (.str "")) ||
        check_seismic (.str (pyStr (.obj [("seismic_inclusions",
          JVal.str "seismic bracing required")])))) = "S" ∧
    (generate_box_number
      [("height", JVal.str "72"), ("width", JVal.str "42"), ("depth", JVal.str "56"),
       ("breaker_manufacturer", JVal.str "ABB"), ("mounting_type", JVal.str "Drawout")]
      [("seismic_inclusions", JVal.str "seismic bracing required")]
      (some kbd)).box_number =
      "APBX" ++ get_dimension_code "height" (JVal.str "72") (some kbd)
        ++ get_dimension_code "width" (JVal.str "42") (some kbd)
        ++ get_dimension_code "depth" (JVal.str "56") (some kbd)
        ++ "D" ++ "D" ++ "L" ++ "S" ++ "-G01-" ++ "99" :=
  ⟨rfl, rfl, rfl⟩

/-- Claim C9 (amended): for every section, board-features dict and loaded
knowledge base, the seismic slot of the generated box number is `"S"` if
and only if one of the seismic keywords occurs (case-insensitively) in the
supplied seismic text OR in the Python string form of the entire
board-features dict, and `"X"` otherwise.  (The second disjunct makes the
original claim false: the very key name `seismic_inclusions` contains
`SEISMIC`, so any board-features dict carrying that key is flagged.) -/
theorem C9_seismic_code (section_data board_features : List (String × JVal))
    (kbd : KnowledgeBase) :
    ∃ hc wc dc fc hwc finc : String,
      (generate_box_number section_data board_features (some kbd)).box_number =
        "APBX" ++ hc ++ wc ++ dc ++ fc ++ fc ++ hwc ++
          (if check_seismic (pyOr (dictGetD board_features "seismic_inclusions" (.str ""))
                (.str "")) ||
              check_seismic (.str (pyStr (.obj board_features))) then "S" else "X") ++
          "-G01-" ++ finc :=
  ⟨get_dimension_code "height" (dictGetD section_data "height" .null) (some kbd),
   get_dimension_code "width" (dictGetD section_data "width" .null) (some kbd),
   get_dimension_code "depth" (dictGetD section_data "depth" .null) (some kbd),
   get_front_cornerpost_code section_data
     (check_seismic (pyOr (dictGetD board_features "seismic_inclusions" (.str "")) (.str "")) ||
       check_seismic (.str (pyStr (.obj board_features)))) (some kbd),
   get_hardware_code (dictGetD section_data "hardware" (.str "")),
   get_finish_code (pyOr (dictGetD board_features "paint_finish" (.str ""))
     (dictGetD board_features "finish" (.str ""))) (some kbd),
   rfl⟩

/-- Claim C9 counterexample: with the seismic text empty (no keyword in
it), the generated seismic code is still `"S"`, because the string form of
the board-features dict contains the key name `seismic_inclusions`; the
box number for the C8 section shows `"S"` in the seismic slot. -/
theorem C9_seismic_code_cex :
    (generate_box_number
      [("height", JVal.str "72"), ("width", JVal.str "42"), ("depth", JVal.str "56"),
       ("breaker_manufacturer", JVal.str "ABB"), ("mounting_type", JVal.str "Drawout")]
      [("seismic_inclusions", JVal.str "")] (some ⟨[], [], []⟩)).box_number =
      "APBXZZZDDLS-G01-99" ∧
    check_seismic (pyOr (dictGetD [("seismic_inclusions", JVal.str "")]
      "seismic_inclusions" (.str "")) (.str "")) = false ∧
    get_seismic_code
      (check_seismic (pyOr (dictGetD [("seismic_inclusions", JVal.str "")]
          "seismic_inclusions" (.str "")) (.str "")) ||
        check_seismic (.str (pyStr (.obj [("seismic_inclusions", JVal.str "")])))) =
      "S" :=
  ⟨rfl, rfl, rfl⟩


/-- Pair membership gives a successful lookup. -/
theorem lookup_isSome_of_mem {β : Type} (l : List (String × β)) (k : String) (v : β)
    (h : (k, v) ∈ l) : (l.lookup k).isSome = true := by
  induction l with
  | nil => cases h
  | cons p rest ih =>
    by_cases hk : k = p.1
    · simp [List.lookup, hk]
    · cases h with
      | head => exact absurd rfl hk
      | tail _ hm =>
        have hba : (k == p.1) = false := by simp [hk]
        simpa [List.lookup, hba] using ih hm

/-- The record returned in the first component of `match_assembly` is the
input with `breaker_type` normalized in place when it was set and nonempty,
and the unchanged input otherwise. -/
theorem match_assembly_fst (tp : String → Nat) (f : FeatureRecord) :
    (match_assembly tp f).1 =
      (if optStrTruthy f.breaker_type then
        { f with breaker_type := some (normalize_breaker_type (f.breaker_type.getD "")) }
      else f) := by
  unfold match_assembly
  dsimp only
  split <;> split <;> first | rfl | (split <;> rfl)

/-- The matched-assemblies component of `match_assembly` is either the
filtered key list (for the updated features) or empty. -/
theorem match_assembly_snd (tp : String → Nat) (f : FeatureRecord) :
    (match_assembly tp f).2.1 =
      (assembly_specs.filter
        (fun p => features_match (match_assembly tp f).1 p.2)).map (fun p => p.1) ∨
    (match_assembly tp f).2.1 = [] := by
  unfold match_assembly
  dsimp only
  split <;> split <;>
    first
      | exact Or.inl rfl
      | exact Or.inr rfl
      | (split <;> first | exact Or.inl rfl | exact Or.inr rfl)

/-- Every id in the matched-assemblies component of `match_assembly` is a
key of the hard-coded spec table. -/
theorem match_matches_known (tp : String → Nat) (f : FeatureRecord) (a : String)
    (h : a ∈ (match_assembly tp f).2.1) :
    (assembly_specs.lookup a).isSome = true := by
  rcases match_assembly_snd tp f with hs | hs
  · rw [hs] at h
    obtain ⟨p, hpf, hpa⟩ := List.mem_map.mp h
    have hps : p ∈ assembly_specs := (List.mem_filter.mp hpf).1
    subst hpa
    exact lookup_isSome_of_mem assembly_specs p.1 p.2 hps
  · rw [hs] at h
    exact absurd h (List.not_mem_nil a)

/-- `generate_bom` cannot raise for an id known to the spec table: the
not-found guard returns the error object, and otherwise both lookups
succeed. -/
theorem generate_bom_ok (assemblies : List (String × AssemblyData)) (a : String)
    (h : (assembly_specs.lookup a).isSome = true) :
    ∃ r, generate_bom assemblies a = .ok r := by
  by_cases hc : (assemblies.map (fun p => p.1)).contains a = true
  · obtain ⟨v, hv, _⟩ := lookup_of_keys_contains assemblies a hc
    obtain ⟨sp, hsp⟩ := Option.isSome_iff_exists.mp h
    exact ⟨.bom
      { assembly_number := a, project := sp.project, specifications := sp,
        total_parts := v.total_parts,
        components := v.components.map (fun c =>
          ⟨c.part_number, c.description, c.quantity, c.sequence⟩) },
      by unfold generate_bom; rw [hc, hv, hsp]; rfl⟩
  · have hc' : (assemblies.map (fun p => p.1)).contains a = false := by
      cases hcc : (assemblies.map (fun p => p.1)).contains a
      · rfl
      · exact absurd hcc hc
    exact ⟨.err ("Assembly " ++ a ++ " not found") (assemblies.map (fun p => p.1)),
      by unfold generate_bom; rw [hc']; rfl⟩

/-- When extraction and the typed conversion succeed, the body of
`match_quote_to_assembly` returns normally and its `extracted_features` is
exactly the (mutated) record returned by `match_assembly`. -/
theorem match_quote_body_ok (assemblies : List (String × AssemblyData)) (tp : String → Nat)
    (quote_json : JVal) (raw : RawFeatures) (f : FeatureRecord)
    (h1 : extract_features_from_quote quote_json = .ok raw)
    (h2 : toFeatureRecord raw = .ok f) :
    ∃ r, match_quote_body assemblies tp quote_json = .ok r ∧
      r.extracted_features = some (match_assembly tp f).1 := by
  unfold match_quote_body
  rw [h1]
  dsimp only
  rw [h2]
  dsimp only
  rcases hma : match_assembly tp f with ⟨f2, found, status, msg⟩
  dsimp only
  by_cases hx : (status == "exact_match" && !found.isEmpty) = true
  · rw [if_pos hx]
    cases found with
    | nil => simp at hx
    | cons a rest =>
      have hmem : a ∈ (match_assembly tp f).2.1 := by
        rw [hma]
        exact List.mem_cons_self _ _
      obtain ⟨r, hr⟩ := generate_bom_ok assemblies a (match_matches_known tp f a hmem)
      dsimp only
      rw [hr]
      exact ⟨_, rfl, rfl⟩
  · rw [if_neg hx]
    exact ⟨_, rfl, rfl⟩

/-- The body of `match_from_user_input` always returns normally, with
`extracted_features` the (mutated) record returned by `match_assembly`. -/
theorem user_input_body_ok (assemblies : List (String × AssemblyData)) (tp : String → Nat)
    (user_input : String) :
    ∃ r, user_input_body assemblies tp user_input = .ok r ∧
      r.extracted_features = some (match_assembly tp (parse_user_features user_input)).1 := by
  unfold user_input_body
  rcases hma : match_assembly tp (parse_user_features user_input) with ⟨f2, found, status, msg⟩
  dsimp only
  by_cases hx : (status == "exact_match" && !found.isEmpty) = true
  · rw [if_pos hx]
    cases found with
    | nil => simp at hx
    | cons a rest =>
      have hmem : a ∈ (match_assembly tp (parse_user_features user_input)).2.1 := by
        rw [hma]
        exact List.mem_cons_self _ _
      obtain ⟨r, hr⟩ := generate_bom_ok assemblies a
        (match_matches_known tp (parse_user_features user_input) a hmem)
      dsimp only
      rw [hr]
      exact ⟨_, rfl, rfl⟩
  · rw [if_neg hx]
    exact ⟨_, rfl, rfl⟩

/-- Claim C10: `match_assembly` mutates the features record it is given —
a set `breaker_type` is overwritten with its normalized canonical form
while every other field is left unchanged — and both
`match_quote_to_assembly` and `match_from_user_input` return that mutated
record as their `extracted_features`. -/
theorem C10_breaker_normalized (assemblies : List (String × AssemblyData))
    (tp : String → Nat) (quote_json : JVal) (raw : RawFeatures) (f : FeatureRecord)
    (b : String)
    (h1 : extract_features_from_quote quote_json = .ok raw)
    (h2 : toFeatureRecord raw = .ok f)
    (hb : f.breaker_type = some b) :
    (match_assembly tp f).1 = { f with breaker_type := some (normalize_breaker_type b) } ∧
    (match_quote_to_assembly assemblies tp quote_json).extracted_features =
      some (match_assembly tp f).1 ∧
    ∀ s : String, (match_from_user_input assemblies tp s).extracted_features =
      some (match_assembly tp (parse_user_features s)).1 := by
  refine ⟨?_, ?_, ?_⟩
  · rw [match_assembly_fst, hb]
    by_cases hbe : b = ""
    · subst hbe
      rw [if_neg (by simp [optStrTruthy])]
      cases f
      dsimp only at hb
      subst hb
      rfl
    · rw [if_pos (by simp [optStrTruthy, hbe])]
      rfl
  · obtain ⟨r, hr, he⟩ := match_quote_body_ok assemblies tp quote_json raw f h1 h2
    unfold match_quote_to_assembly
    rw [hr]
    exact he
  · intro s
    obtain ⟨r, hr, he⟩ := user_input_body_ok assemblies tp s
    unfold match_from_user_input
    rw [hr]
    exact he

/-- Witness for C10 on a quote whose main breaker type is the raw string
`abb emax 6.2 breaker` (normalized to `ABB SACE Emax 6.2`). -/
theorem C10_breaker_normalized_witness :
    extract_features_from_quote (.obj [("sections", .arr [.obj [("main_circuit_breaker",
        .obj [("type", JVal.str "abb emax 6.2 breaker")])]])]) =
      .ok ⟨none, none, none, some (.str "abb emax 6.2 breaker"), some 1, none, none⟩ ∧
    toFeatureRecord ⟨none, none, none, some (.str "abb emax 6.2 breaker"), some 1,
        none, none⟩ =
      .ok ⟨none, none, none, some "abb emax 6.2 breaker", some 1, none, none⟩ ∧
    (⟨none, none, none, some "abb emax 6.2 breaker", some 1, none, none⟩ :
      FeatureRecord).breaker_type = some "abb emax 6.2 breaker" ∧
    ((match_assembly (fun _ => 0)
        ⟨none, none, none, some "abb emax 6.2 breaker", some 1, none, none⟩).1 =
      { (⟨none, none, none, some "abb emax 6.2 breaker", some 1, none, none⟩ :
          FeatureRecord) with
        breaker_type := some (normalize_breaker_type "abb emax 6.2 breaker") } ∧
    (match_quote_to_assembly [] (fun _ => 0)
        (.obj [("sections", .arr [.obj [("main_circuit_breaker",
          .obj [("type", JVal.str "abb emax 6.2 breaker")])]])])).extracted_features =
      some (match_assembly (fun _ => 0)
        ⟨none, none, none, some "abb emax 6.2 breaker", some 1, none, none⟩).1 ∧
    ∀ s : String, (match_from_user_input [] (fun _ => 0) s).extracted_features =
      some (match_assembly (fun _ => 0) (parse_user_features s)).1) :=
  ⟨rfl, rfl, rfl,
    C10_breaker_normalized [] (fun _ => 0) _ _ _ _ rfl rfl rfl⟩
